import Mathlib

set_option maxRecDepth 20000

/-!
Verification development for the farm-maps-core layer/feature search engine,
color assignment, layer validation and geometry analytics.

Strings are modelled as lists of characters (`Str`); JavaScript string
operations map as follows: `===` is list equality, `includes` is `<:+:`
(contiguous infix), `toLowerCase` maps `Char.toLower`, `slice(0, 3)` is
`take 3`, and a string is falsy exactly when it is empty.  JavaScript
numbers, where division by zero matters, are modelled by `JSNum`
(rationals extended with the IEEE special values).  The external turf.js
library (area, length, centroid, log, sqrt) is out of scope: its results
enter the modelled functions as parameters; the one piece of turf
behavior the repository's error handling depends on — the coordinate
validation of the point constructor, which rejects `NaN` — is modelled
explicitly.
-/

namespace FarmMaps

/-- JavaScript strings as lists of characters. -/
abbrev Str := List Char

/-- `s.toLowerCase()` on the ASCII range. -/
def lower (s : Str) : Str := s.map Char.toLower

/-- `!s.trim()` : the string is empty or whitespace-only (falsy after trim). -/
def isBlank (s : Str) : Bool := s.all Char.isWhitespace

/-! ## Unique color assignment (src/utils/colorPalette.ts) -/

/-- A `{color, name, description}` palette entry. -/
structure ColorInfo where
  color : Str
  name : Str
  description : Str
deriving DecidableEq, Repr

/-- The fixed 20-entry palette `LAYER_COLORS` from colorPalette.ts.
Note that the color `#F59E0B` occurs twice (Amber and Yellow). -/
def LAYER_COLORS : List ColorInfo :=
  [ ⟨"#FF6B35".toList, "Orange".toList, "WIC Locations".toList⟩,
    ⟨"#088".toList, "Teal".toList, "Ahupuaa Boundaries".toList⟩,
    ⟨"#800080".toList, "Purple".toList, "School Complex Areas".toList⟩,
    ⟨"#008000".toList, "Green".toList, "School Districts".toList⟩,
    ⟨"#6B46C1".toList, "Violet".toList, "GIS Layer Features".toList⟩,
    ⟨"#007cba".toList, "Blue".toList, "Drawn Features".toList⟩,
    ⟨"#DC2626".toList, "Red".toList, "Emergency Services".toList⟩,
    ⟨"#F59E0B".toList, "Amber".toList, "Transportation".toList⟩,
    ⟨"#10B981".toList, "Emerald".toList, "Parks & Recreation".toList⟩,
    ⟨"#8B5CF6".toList, "Indigo".toList, "Utilities".toList⟩,
    ⟨"#EF4444".toList, "Rose".toList, "Healthcare".toList⟩,
    ⟨"#06B6D4".toList, "Cyan".toList, "Water Features".toList⟩,
    ⟨"#84CC16".toList, "Lime".toList, "Agriculture".toList⟩,
    ⟨"#F97316".toList, "Orange Red".toList, "Commercial".toList⟩,
    ⟨"#EC4899".toList, "Pink".toList, "Residential".toList⟩,
    ⟨"#6366F1".toList, "Blue Violet".toList, "Government".toList⟩,
    ⟨"#14B8A6".toList, "Teal Green".toList, "Environmental".toList⟩,
    ⟨"#F59E0B".toList, "Yellow".toList, "Infrastructure".toList⟩,
    ⟨"#8B5A2B".toList, "Brown".toList, "Historical".toList⟩,
    ⟨"#6B7280".toList, "Gray".toList, "Other Features".toList⟩ ]

/-- The module-level `assignedColors : Map<string, string>` (layer id to
color), as an insertion-ordered association list with unique keys. -/
abbrev ColorState := List (Str × Str)

/-- `assignedColors.get(layerId)` (with `has` as `isSome`). -/
def lookupAssign (s : ColorState) (layerId : Str) : Option Str :=
  (s.find? (fun e => e.1 = layerId)).map (fun e => e.2)

/-- `Array.from(assignedColors.values())`, in insertion order. -/
def assignedValues (s : ColorState) : List Str := s.map (fun e => e.2)

/-- Fallback entry for the (in-bounds) indexing `LAYER_COLORS[i]`. -/
def emptyColorInfo : ColorInfo := ⟨[], [], []⟩

/-- The `for (const colorInfo of LAYER_COLORS)` scan of `getLayerColor`,
iterating the palette entries in order: at each entry the current
`Array.from(assignedColors.values())` is consulted and the first entry
whose color is not among the assigned values is returned (the map is not
mutated until the loop returns, so `s` is constant throughout); `none`
models the loop running off the end of the palette. -/
def scanPalette (s : ColorState) : List ColorInfo → Option ColorInfo
  | [] => none
  | colorInfo :: rest =>
      if !((assignedValues s).contains colorInfo.color) then some colorInfo
      else scanPalette s rest

/-- `getLayerColor` from colorPalette.ts, with the module-level map passed
as explicit state.  Branches, in source order: (1) the id already has an
entry: return the first palette entry bearing the stored color, or
`LAYER_COLORS[0]`; (2) the palette scan for the first unassigned color;
(3) wraparound: `LAYER_COLORS[assignedColors.size % 20]`. -/
def getLayerColor (layerId : Str) (s : ColorState) : ColorInfo × ColorState :=
  match lookupAssign s layerId with
  | some color =>
      ((LAYER_COLORS.find? (fun c => c.color = color)).getD
        (LAYER_COLORS.getD 0 emptyColorInfo), s)
  | none =>
      match scanPalette s LAYER_COLORS with
      | some ci => (ci, s ++ [(layerId, ci.color)])
      | none =>
          let index := s.length % LAYER_COLORS.length
          let ci := LAYER_COLORS.getD index emptyColorInfo
          (ci, s ++ [(layerId, ci.color)])

/-- `resetColorAssignments` clears the map. -/
def resetColorAssignments : ColorState := []

/-- `getColorInfo` : reverse lookup by color with a synthesized
`Custom` record for unknown colors. -/
def getColorInfo (color : Str) : ColorInfo :=
  (LAYER_COLORS.find? (fun c => c.color = color)).getD
    ⟨color, "Custom".toList, "Custom color".toList⟩

/-! ## JavaScript numbers

Rationals extended with the IEEE-754 special values.  Rounding and signed
zero are not modelled (no claim here depends on them); the special-value
propagation of `+`, `*`, `/`, `<=` follows IEEE-754 / JavaScript. -/

inductive JSNum where
  | num (q : ℚ)
  | posInf
  | negInf
  | nan
deriving DecidableEq, Repr

namespace JSNum

/-- JavaScript `+`. -/
def add : JSNum → JSNum → JSNum
  | num a, num b => num (a + b)
  | nan, _ => nan
  | _, nan => nan
  | posInf, negInf => nan
  | negInf, posInf => nan
  | posInf, _ => posInf
  | _, posInf => posInf
  | negInf, _ => negInf
  | _, negInf => negInf

/-- JavaScript `*`. -/
def mul : JSNum → JSNum → JSNum
  | num a, num b => num (a * b)
  | nan, _ => nan
  | _, nan => nan
  | posInf, posInf => posInf
  | posInf, negInf => negInf
  | negInf, posInf => negInf
  | negInf, negInf => posInf
  | posInf, num b => if b = 0 then nan else if 0 < b then posInf else negInf
  | num a, posInf => if a = 0 then nan else if 0 < a then posInf else negInf
  | negInf, num b => if b = 0 then nan else if 0 < b then negInf else posInf
  | num a, negInf => if a = 0 then nan else if 0 < a then negInf else posInf

/-- JavaScript `/` : in particular `x / 0` is `NaN` when `x = 0` and a
signed infinity otherwise. -/
def div : JSNum → JSNum → JSNum
  | num a, num b =>
      if b = 0 then (if a = 0 then nan else if 0 < a then posInf else negInf)
      else num (a / b)
  | nan, _ => nan
  | _, nan => nan
  | posInf, posInf => nan
  | posInf, negInf => nan
  | negInf, posInf => nan
  | negInf, negInf => nan
  | posInf, num b => if 0 ≤ b then posInf else negInf
  | negInf, num b => if 0 ≤ b then negInf else posInf
  | num _, posInf => num 0
  | num _, negInf => num 0

/-- JavaScript `<=` : comparisons involving `NaN` are false. -/
def le : JSNum → JSNum → Bool
  | num a, num b => a ≤ b
  | nan, _ => false
  | _, nan => false
  | negInf, _ => true
  | _, posInf => true
  | posInf, num _ => false
  | posInf, negInf => false
  | num _, negInf => false

end JSNum

/-- The exact rational value of the IEEE-754 double `Math.PI`. -/
def jsPI : ℚ := 884279719003555 / 281474976710656

/-! ## Geometry analytics (src/utils/geometry.ts and the shape-index
module).  `turf.area`, `turf.length`, `turf.centroid`, `Math.log` and
`Math.sqrt` are external library calls; their results are parameters. -/

/-- `isNumber` from the turf helpers, on a numeric argument:
`!isNaN(num) && num !== null && !Array.isArray(num)` — rejects `NaN`,
accepts the infinities. -/
def isNumberJS : JSNum → Bool
  | .nan => false
  | _ => true

/-- The coordinate validation of `turf.point([x, y])`: throws
`coordinates must contain numbers` when either coordinate fails
`isNumber`; otherwise the point is constructed. -/
def turfPoint (x y : JSNum) : Except Str (JSNum × JSNum) :=
  if !(isNumberJS x) || !(isNumberJS y) then
    .error "coordinates must contain numbers".toList
  else .ok (x, y)

/-- One iteration of the accumulation loop of
`calculateAreaWeightedCentroid`: `totalArea += area;
weightedX += centroid.x * area; weightedY += centroid.y * area`. -/
def centroidStep {F : Type} (area : F → JSNum) (centroidF : F → JSNum × JSNum)
    (acc : JSNum × JSNum × JSNum) (poly : F) : JSNum × JSNum × JSNum :=
  let a := area poly
  let c := centroidF poly
  (acc.1.add a, (acc.2.1).add (c.1.mul a), (acc.2.2).add (c.2.mul a))

/-- `calculateAreaWeightedCentroid` from geometry.ts.  `area` and
`centroidF` stand for `turf.area` and `turf.centroid` (the latter
projected to its `[x, y]` coordinates).  Throws (models as `.error`)
for the empty list; a singleton returns its centroid; otherwise the
accumulation loop runs, the division is unguarded, and the resulting
coordinates pass through `turf.point`'s validation, which throws on a
`NaN` coordinate. -/
def calculateAreaWeightedCentroid {F : Type} (area : F → JSNum)
    (centroidF : F → JSNum × JSNum) (polygons : List F) :
    Except Str (JSNum × JSNum) :=
  match polygons with
  | [] => .error "No polygons provided".toList
  | [p] => .ok (centroidF p)
  | ps =>
      let acc := ps.foldl (centroidStep area centroidF)
        (JSNum.num 0, JSNum.num 0, JSNum.num 0)
      turfPoint (acc.2.1.div acc.1) (acc.2.2.div acc.1)

/-- `calculateCompactnessRatio` : guard `perimeter === 0`, else
`4π·area / perimeter²`. -/
def calculateCompactnessRatio (area perimeter : JSNum) : JSNum :=
  if perimeter = JSNum.num 0 then JSNum.num 0
  else (((JSNum.num 4).mul (JSNum.num jsPI)).mul area).div (perimeter.mul perimeter)

/-- `calculateElongationRatio` : guard `perimeter === 0`, else
`perimeter² / (4π·area)` — the division by the area is unguarded. -/
def calculateElongationRatio (area perimeter : JSNum) : JSNum :=
  if perimeter = JSNum.num 0 then JSNum.num 0
  else (perimeter.mul perimeter).div (((JSNum.num 4).mul (JSNum.num jsPI)).mul area)

/-- `calculateCircularity` : same formula and guard as compactness. -/
def calculateCircularity (area perimeter : JSNum) : JSNum :=
  if perimeter = JSNum.num 0 then JSNum.num 0
  else (((JSNum.num 4).mul (JSNum.num jsPI)).mul area).div (perimeter.mul perimeter)

/-- `calculateRoundness` : same formula and guard as compactness. -/
def calculateRoundness (area perimeter : JSNum) : JSNum :=
  if perimeter = JSNum.num 0 then JSNum.num 0
  else (((JSNum.num 4).mul (JSNum.num jsPI)).mul area).div (perimeter.mul perimeter)

/-- `calculateFractalDimension` : guard `area <= 0 || perimeter <= 0`,
else `2·log(perimeter) / log(area)` with `jsLog` standing for the host's
`Math.log`. -/
def calculateFractalDimension (jsLog : JSNum → JSNum) (area perimeter : JSNum) : JSNum :=
  if area.le (JSNum.num 0) || perimeter.le (JSNum.num 0) then JSNum.num 0
  else ((JSNum.num 2).mul (jsLog perimeter)).div (jsLog area)

/-- `calculateShapeIndex` : guard `area <= 0 || perimeter <= 0`, else
`perimeter / (2·sqrt(π·area))` with `jsSqrt` standing for `Math.sqrt`. -/
def calculateShapeIndex (jsSqrt : JSNum → JSNum) (area perimeter : JSNum) : JSNum :=
  if area.le (JSNum.num 0) || perimeter.le (JSNum.num 0) then JSNum.num 0
  else perimeter.div ((JSNum.num 2).mul (jsSqrt ((JSNum.num jsPI).mul area)))

/-! ## Layer / feature data model (src/types, part of searchUtils) -/

/-- A GeoJSON feature as the search engine sees it: a property bag
(string keys to string values; a JS-falsy value is the empty string) and
an optional top-level id.  Geometry is irrelevant to search and omitted. -/
structure GeoJSONFeature where
  properties : List (Str × Str)
  id : Option Str
deriving DecidableEq, Repr

/-- The `data` field of a layer: a `type` tag and the `features` array
(`none` models an absent `features` field).  In this typed model a
present `features` value is always an array, so the source's
`!Array.isArray(features)` validation branch cannot fire. -/
structure LayerData where
  type : Str
  features : Option (List GeoJSONFeature)
deriving DecidableEq, Repr

/-- A map layer.  `data = none` models a runtime-absent `data` field
(the TS type forbids it, but `validateLayer` guards for it).  Style
metadata is irrelevant to the claims and omitted. -/
structure MapLayer where
  id : Str
  name : Str
  data : Option LayerData
  nameProperty : Str
deriving DecidableEq, Repr

/-- `layer.data?.features`, as used by the search functions. -/
def dataFeatures (l : MapLayer) : Option (List GeoJSONFeature) :=
  l.data.bind (fun d => d.features)

/-- Association lookup in a property bag (`properties?.[key]`). -/
def lookupProp (props : List (Str × Str)) (key : Str) : Option Str :=
  (props.find? (fun e => e.1 = key)).map (fun e => e.2)

/-- JS `o || alt` for an optional string: falls through on absence and on
the falsy empty string. -/
def orFalsy (o : Option Str) (alt : Str) : Str :=
  match o with
  | some v => if v = [] then alt else v
  | none => alt

/-- `feature.properties?.[nameProperty] || 'Unnamed Feature'`. -/
def resolveName (nameProperty : Str) (f : GeoJSONFeature) : Str :=
  orFalsy (lookupProp f.properties nameProperty) "Unnamed Feature".toList

/-- `feature.properties?.objectid || feature.properties?.id || feature.id || ''`. -/
def resolveId (f : GeoJSONFeature) : Str :=
  orFalsy (lookupProp f.properties "objectid".toList)
    (orFalsy (lookupProp f.properties "id".toList) (orFalsy f.id []))

/-! ## Search & ranking engine (searchUtils) -/

inductive MatchType where
  | exact
  | contains
  | fuzzy
deriving DecidableEq, Repr

inductive ResultType where
  | layer
  | feature
deriving DecidableEq, Repr

/-- A search result record.  The source also carries references to the
owning layer object and the feature object; the fields relevant to the
claims are kept. -/
structure SearchResult where
  type : ResultType
  name : Str
  id : Str
  relevance : Nat
  matchType : MatchType
deriving DecidableEq, Repr

/-- The `searchOptions` parameter with its source defaults. -/
structure SearchOptions where
  includeLayerNames : Bool := true
  includeFeatureNames : Bool := true
  includeFeatureIds : Bool := true
  fuzzyMatch : Bool := false
  caseSensitive : Bool := false
  maxResults : Nat := 100
deriving Repr

/-- Relevance band for a layer name/id match (100 / 50 / 25). -/
def layerBand : MatchType → Nat
  | .exact => 100
  | .contains => 50
  | .fuzzy => 25

/-- Relevance band for a feature-name match (90 / 40 / 20). -/
def featureNameBand : MatchType → Nat
  | .exact => 90
  | .contains => 40
  | .fuzzy => 20

/-- Relevance band for a feature-id match (80 / 30 / 15). -/
def featureIdBand : MatchType → Nat
  | .exact => 80
  | .contains => 30
  | .fuzzy => 15

/-- `candidate === query` / `candidate.includes(query)` /
`fuzzyMatch && candidate.includes(query.slice(0, 3))` cascade, shared by
the feature-name and feature-id checks of `searchAcrossLayers`. -/
def classifyMatch (fuzzyMatch : Bool) (query cand : Str) : Option MatchType :=
  if cand = query then some .exact
  else if query <:+: cand then some .contains
  else if fuzzyMatch ∧ query.take 3 <:+: cand then some .fuzzy
  else none

/-- `caseSensitive ? s : s.toLowerCase()`. -/
def normCand (caseSensitive : Bool) (s : Str) : Str :=
  if caseSensitive then s else lower s

/-- The layer-candidate block of `searchAcrossLayers` for one layer:
the exact / contains / fuzzy cascade over the layer name and id pair,
pushed only when `relevance > 0`. -/
def layerResult (opts : SearchOptions) (query : Str) (layer : MapLayer) :
    Option SearchResult :=
  let layerName := normCand opts.caseSensitive layer.name
  let layerId := normCand opts.caseSensitive layer.id
  if layerName = query ∨ layerId = query then
    some ⟨.layer, layer.name, layer.id, 100, .exact⟩
  else if query <:+: layerName ∨ query <:+: layerId then
    some ⟨.layer, layer.name, layer.id, 50, .contains⟩
  else if opts.fuzzyMatch ∧ (query.take 3 <:+: layerName ∨ query.take 3 <:+: layerId) then
    some ⟨.layer, layer.name, layer.id, 25, .fuzzy⟩
  else none

/-- The feature block of `searchAcrossLayers` for one feature: the name
check runs first (when enabled); the id check runs only when the name
did not match (`!matched`). -/
def featureResult (opts : SearchOptions) (query : Str) (nameProperty : Str)
    (f : GeoJSONFeature) : Option SearchResult :=
  let featureName := resolveName nameProperty f
  let featureId := resolveId f
  let nameMatch :=
    if opts.includeFeatureNames then
      classifyMatch opts.fuzzyMatch query (normCand opts.caseSensitive featureName)
    else none
  match nameMatch with
  | some mt => some ⟨.feature, featureName, featureId, featureNameBand mt, mt⟩
  | none =>
      if opts.includeFeatureIds then
        match classifyMatch opts.fuzzyMatch query (normCand opts.caseSensitive featureId) with
        | some mt => some ⟨.feature, featureName, featureId, featureIdBand mt, mt⟩
        | none => none
      else none

/-- The `results` array of `searchAcrossLayers` before sorting: layer
results (in layer order, when `includeLayerNames`), then feature results
(layer by layer, skipping layers without a features array, when
`includeFeatureNames || includeFeatureIds`). -/
def searchCandidates (layers : List MapLayer) (query : Str)
    (opts : SearchOptions) : List SearchResult :=
  (if opts.includeLayerNames then layers.filterMap (layerResult opts query) else []) ++
  (if opts.includeFeatureNames || opts.includeFeatureIds then
    layers.flatMap (fun layer =>
      ((dataFeatures layer).getD []).filterMap
        (featureResult opts query layer.nameProperty))
  else [])

/-- `searchAcrossLayers` : empty for a blank query; otherwise the
candidate results stably sorted descending by relevance
(`sort((a, b) => b.relevance - a.relevance)`), truncated to
`maxResults` (`slice(0, maxResults)`). -/
def searchAcrossLayers (layers : List MapLayer) (searchQuery : Str)
    (opts : SearchOptions) : List SearchResult :=
  if isBlank searchQuery then [] else
  ((searchCandidates layers (normCand opts.caseSensitive searchQuery) opts).mergeSort
    (fun a b => b.relevance ≤ a.relevance)).take opts.maxResults

/-- JS `Set` insertion-order deduplication (`Array.from(new Set(...))`
with elements added left to right). -/
def insertionDedup (l : List Str) : List Str :=
  l.foldl (fun acc x => if x ∈ acc then acc else acc ++ [x]) []

/-- The strings added to the suggestion `Set`, in insertion order: layer
names and ids (per layer, name before id), then feature names (no
`Unnamed Feature` fallback, falsy names skipped), each filtered by
lower-cased containment of the query. -/
def suggestionCandidates (layers : List MapLayer) (query : Str) : List Str :=
  layers.flatMap (fun l =>
    (if query <:+: lower l.name then [l.name] else []) ++
    (if query <:+: lower l.id then [l.id] else [])) ++
  layers.flatMap (fun l =>
    ((dataFeatures l).getD []).filterMap (fun f =>
      match lookupProp f.properties l.nameProperty with
      | some v => if v ≠ [] ∧ query <:+: lower v then some v else none
      | none => none))

/-- `getSearchSuggestions` : empty when the query is blank or shorter
than 2 characters; otherwise the candidate strings deduplicated in
first-occurrence order, truncated to `maxSuggestions`. -/
def getSearchSuggestions (layers : List MapLayer) (partialQuery : Str)
    (maxSuggestions : Nat := 10) : List Str :=
  if isBlank partialQuery || partialQuery.length < 2 then [] else
  (insertionDedup (suggestionCandidates layers (lower partialQuery))).take
    maxSuggestions

/-- `filterLayerFeatures` : blank term (or absent features) returns
`features || []`; otherwise filters by case-insensitive containment in
the resolved feature name.  (`layer.data` is non-optional in the TS
type; the `none` arm is unreachable for well-typed layers.) -/
def filterLayerFeatures (layer : MapLayer) (searchTerm : Str) : List GeoJSONFeature :=
  match layer.data with
  | none => []
  | some d =>
      match d.features with
      | none => []
      | some fs =>
          if isBlank searchTerm then fs
          else fs.filter (fun f =>
            decide (lower searchTerm <:+: lower (resolveName layer.nameProperty f)))

/-- `validateLayer` : accumulates the violated checks in source order. -/
def validateLayer (layer : MapLayer) : Bool × List Str :=
  let errors :=
    (if layer.id = [] then ["Layer ID is required".toList] else []) ++
    (if layer.name = [] then ["Layer name is required".toList] else []) ++
    (if layer.data = none then ["Layer data is required".toList] else []) ++
    (if layer.nameProperty = [] then ["Name property is required".toList] else []) ++
    (match layer.data with
     | some d =>
         if d.type ≠ "FeatureCollection".toList then
           ["Layer data must be a FeatureCollection".toList]
         else []
     | none => [])
  (errors.length = 0, errors)

/-! ## Concrete fixtures used by witnesses and counterexamples -/

/-- Single-character layer ids `A`, `B`, … for bulk color assignment. -/
def mkId (n : Nat) : Str := [Char.ofNat (65 + n)]

/-- The color-assignment state after 37 fresh layer ids have been
assigned colors in sequence: the 19 distinct palette colors are handed
out first, then the wraparound cycles indices 19, 0, 1, …, 16. -/
def wrapState : ColorState :=
  ((List.range 37).map mkId).foldl (fun s i => (getLayerColor i s).2) []

/-- A two-feature fixture layer, after the test suite's
`boundary_ahupuaa_layer`. -/
def ahupuaaLayer : MapLayer :=
  { id := "boundary_ahupuaa_layer".toList
    name := "Ahupuaa Boundaries".toList
    data := some ⟨"FeatureCollection".toList,
      some [ ⟨[("ahupuaa".toList, "Test Ahupuaa 1".toList)], none⟩,
             ⟨[("ahupuaa".toList, "Test Ahupuaa 2".toList)], none⟩ ]⟩
    nameProperty := "ahupuaa".toList }

/-- A layer whose name contains two consecutive spaces. -/
def doubleSpaceLayer : MapLayer :=
  { id := "l1".toList
    name := "a  b".toList
    data := some ⟨"FeatureCollection".toList, some []⟩
    nameProperty := "name".toList }

/-- A featureless layer whose name matches the query `farm` exactly
(case-insensitively). -/
def farmLayer : MapLayer :=
  { id := "f1".toList
    name := "Farm".toList
    data := some ⟨"FeatureCollection".toList, some []⟩
    nameProperty := "name".toList }

/-- A feature whose resolved name is a `contains` match and whose
resolved id is an `exact` match for the query `farm`. -/
def bothMatchFeature : GeoJSONFeature :=
  ⟨[("name".toList, "big farm".toList), ("objectid".toList, "farm".toList)], none⟩

/-! ## Helper lemmas -/

theorem lookupAssign_append_self (s : ColorState) (layerId c : Str)
    (h : lookupAssign s layerId = none) :
    lookupAssign (s ++ [(layerId, c)]) layerId = some c := by
  unfold lookupAssign at h ⊢
  have hf : List.find? (fun e => decide (e.1 = layerId)) s = none := by
    rcases hf : List.find? (fun e => decide (e.1 = layerId)) s with _ | e
    · exact hf
    · rw [hf] at h
      simp at h
  rw [List.find?_append, hf]
  simp [List.find?]

theorem scanPalette_eq_find? (s : ColorState) (l : List ColorInfo) :
    scanPalette s l = l.find? (fun ci => !((assignedValues s).contains ci.color)) := by
  induction l with
  | nil => rfl
  | cons c rest ih =>
      simp only [scanPalette, List.find?, ih]
      cases hc : (assignedValues s).contains c.color <;> simp

theorem find?_color_of_mem (ci : ColorInfo) (h : ci ∈ LAYER_COLORS) :
    ∃ d, LAYER_COLORS.find? (fun c => c.color = ci.color) = some d ∧
      d.color = ci.color := by
  have hs : (LAYER_COLORS.find? (fun c => decide (c.color = ci.color))).isSome := by
    rw [List.find?_isSome]
    exact ⟨ci, h, by simp⟩
  rcases Option.isSome_iff_exists.1 hs with ⟨d, hd⟩
  refine ⟨d, hd, ?_⟩
  have := List.find?_some hd
  simpa using this

theorem getD_mem_LAYER_COLORS (i : Nat) (h : i < LAYER_COLORS.length) :
    LAYER_COLORS.getD i emptyColorInfo ∈ LAYER_COLORS := by
  rw [List.getD_eq_getElem _ _ h]
  exact List.getElem_mem h

/-! ## C3 — idempotence of color assignment -/

/-- C3 (amended): calling `getLayerColor` twice in a row with the same
layer id (no reset in between) returns a `ColorInfo` with the identical
`color` field both times, and returns the identical full record whenever
the first call's result is the first palette entry bearing its color
(the two can differ only through the duplicated palette color). -/
theorem getLayerColor_color_idempotent (layerId : Str) (s : ColorState) :
    ((getLayerColor layerId (getLayerColor layerId s).2).1).color =
      ((getLayerColor layerId s).1).color ∧
    (LAYER_COLORS.find? (fun c => c.color = ((getLayerColor layerId s).1).color) =
        some (getLayerColor layerId s).1 →
      (getLayerColor layerId (getLayerColor layerId s).2).1 =
        (getLayerColor layerId s).1) := by
  rcases h : lookupAssign s layerId with _ | color
  · rcases hscan : scanPalette s LAYER_COLORS with _ | ci
    · -- wraparound branch
      have hpos : 0 < LAYER_COLORS.length := by decide
      have hlt : s.length % LAYER_COLORS.length < LAYER_COLORS.length :=
        Nat.mod_lt _ hpos
      have hci : LAYER_COLORS.getD (s.length % LAYER_COLORS.length) emptyColorInfo ∈
          LAYER_COLORS := getD_mem_LAYER_COLORS _ hlt
      set ci := LAYER_COLORS.getD (s.length % LAYER_COLORS.length) emptyColorInfo with hcidef
      have h1 : getLayerColor layerId s = (ci, s ++ [(layerId, ci.color)]) := by
        simp only [getLayerColor, h, hscan]
      have h2 : lookupAssign (s ++ [(layerId, ci.color)]) layerId = some ci.color :=
        lookupAssign_append_self s layerId ci.color h
      obtain ⟨d, hdfind, hdcol⟩ := find?_color_of_mem ci hci
      have h3 : getLayerColor layerId (s ++ [(layerId, ci.color)]) =
          (d, s ++ [(layerId, ci.color)]) := by
        simp only [getLayerColor, h2, hdfind, Option.getD_some]
      simp only [h1, h3]
      exact ⟨hdcol, fun hyp => Option.some_injective _ (hdfind.symm.trans hyp)⟩
    · -- fresh-scan branch
      have hci : ci ∈ LAYER_COLORS := List.mem_of_find?_eq_some
        ((scanPalette_eq_find? s LAYER_COLORS).symm.trans hscan)
      have h1 : getLayerColor layerId s = (ci, s ++ [(layerId, ci.color)]) := by
        simp only [getLayerColor, h, hscan]
      have h2 : lookupAssign (s ++ [(layerId, ci.color)]) layerId = some ci.color :=
        lookupAssign_append_self s layerId ci.color h
      obtain ⟨d, hdfind, hdcol⟩ := find?_color_of_mem ci hci
      have h3 : getLayerColor layerId (s ++ [(layerId, ci.color)]) =
          (d, s ++ [(layerId, ci.color)]) := by
        simp only [getLayerColor, h2, hdfind, Option.getD_some]
      simp only [h1, h3]
      exact ⟨hdcol, fun hyp => Option.some_injective _ (hdfind.symm.trans hyp)⟩
  · -- already-assigned branch: the state is unchanged, both calls agree
    have h1 : getLayerColor layerId s =
        ((LAYER_COLORS.find? (fun c => c.color = color)).getD
          (LAYER_COLORS.getD 0 emptyColorInfo), s) := by
      simp only [getLayerColor, h]
    simp only [h1]
    exact ⟨trivial, fun _ => trivial⟩

/-- C3 counterexample: after 37 color assignments the wraparound hands
out the palette's `Yellow` entry (index 17, color `#F59E0B`), but the
second call for the same layer id looks the stored color up by value and
returns the `Amber` entry (index 7, same color): the two `ColorInfo`
records differ. -/
theorem getLayerColor_idempotent_counterexample :
    (getLayerColor "fresh".toList wrapState).1 ≠
      (getLayerColor "fresh".toList (getLayerColor "fresh".toList wrapState).2).1 := by
  decide

/-- C3 witness: on the empty state a fresh id receives the first palette
entry, which is the first entry bearing its color, so the second call
returns the identical record. -/
theorem getLayerColor_color_idempotent_witness :
    (LAYER_COLORS.find?
        (fun c => c.color = ((getLayerColor "x".toList []).1).color) =
      some (getLayerColor "x".toList []).1) ∧
    (getLayerColor "x".toList (getLayerColor "x".toList []).2).1 =
      (getLayerColor "x".toList []).1 :=
  ⟨by decide, (getLayerColor_color_idempotent "x".toList []).2 (by decide)⟩

/-! ## C4 — palette exhaustion wraparound -/

/-- C4: when every palette color is already assigned to some layer and
the requested layer id is fresh, `getLayerColor` does not fail: it
deterministically assigns `LAYER_COLORS[assignedColors.size % 20]` and
records the assignment. -/
theorem getLayerColor_wraparound (layerId : Str) (s : ColorState)
    (h1 : lookupAssign s layerId = none)
    (h2 : ∀ ci ∈ LAYER_COLORS, ci.color ∈ assignedValues s) :
    getLayerColor layerId s =
      (LAYER_COLORS.getD (s.length % LAYER_COLORS.length) emptyColorInfo,
        s ++ [(layerId,
          (LAYER_COLORS.getD (s.length % LAYER_COLORS.length) emptyColorInfo).color)]) := by
  have hscan : scanPalette s LAYER_COLORS = none := by
    rw [scanPalette_eq_find?, List.find?_eq_none]
    intro ci hci
    simp only [Bool.not_eq_true', Bool.not_eq_false]
    exact List.elem_eq_true_of_mem (h2 ci hci)
  simp only [getLayerColor, h1, hscan]

/-- C4 witness: the exhausted 37-entry state and a fresh id. -/
theorem getLayerColor_wraparound_witness :
    lookupAssign wrapState "fresh".toList = none ∧
    (∀ ci ∈ LAYER_COLORS, ci.color ∈ assignedValues wrapState) ∧
    getLayerColor "fresh".toList wrapState =
      (LAYER_COLORS.getD (wrapState.length % LAYER_COLORS.length) emptyColorInfo,
        wrapState ++ [("fresh".toList,
          (LAYER_COLORS.getD (wrapState.length % LAYER_COLORS.length)
            emptyColorInfo).color)]) :=
  ⟨by decide, by decide, getLayerColor_wraparound _ _ (by decide) (by decide)⟩

/-! ## C5 — area-weighted centroid -/

/-- The accumulation loop of `calculateAreaWeightedCentroid` over
features with finite areas and centroids computes the rational sums. -/
theorem centroid_foldl_num {F : Type} (area : F → JSNum)
    (centroidF : F → JSNum × JSNum) (a cx cy : F → ℚ) (l : List F)
    (h : ∀ p ∈ l, area p = JSNum.num (a p) ∧
      centroidF p = (JSNum.num (cx p), JSNum.num (cy p))) :
    ∀ t wx wy : ℚ,
      l.foldl (centroidStep area centroidF) (JSNum.num t, JSNum.num wx, JSNum.num wy) =
      (JSNum.num (t + (l.map a).sum),
       JSNum.num (wx + (l.map (fun p => cx p * a p)).sum),
       JSNum.num (wy + (l.map (fun p => cy p * a p)).sum)) := by
  induction l with
  | nil => intro t wx wy; simp
  | cons p ps ih =>
      intro t wx wy
      have hp := h p (List.mem_cons_self p ps)
      have hps : ∀ q ∈ ps, area q = JSNum.num (a q) ∧
          centroidF q = (JSNum.num (cx q), JSNum.num (cy q)) :=
        fun q hq => h q (List.mem_cons_of_mem p hq)
      have hstep : centroidStep area centroidF
          (JSNum.num t, JSNum.num wx, JSNum.num wy) p =
          (JSNum.num (t + a p), JSNum.num (wx + cx p * a p),
           JSNum.num (wy + cy p * a p)) := by
        simp only [centroidStep, hp.1, hp.2, JSNum.add, JSNum.mul]
      rw [List.foldl_cons, hstep, ih hps]
      simp only [List.map_cons, List.sum_cons, Prod.mk.injEq, JSNum.num.injEq]
      refine ⟨by ring, by ring, by ring⟩

/-- A list of nonnegative rationals summing to zero is all zeros (the
areas reported by `turf.area` are nonnegative). -/
theorem sum_zero_of_nonneg (l : List ℚ) (hnn : ∀ x ∈ l, 0 ≤ x)
    (h0 : l.sum = 0) : ∀ x ∈ l, x = 0 := by
  induction l with
  | nil => intro x hx; cases hx
  | cons y ys ih =>
      have hy : 0 ≤ y := hnn y (List.mem_cons_self y ys)
      have hys : 0 ≤ ys.sum :=
        List.sum_nonneg (fun x hx => hnn x (List.mem_cons_of_mem y hx))
      rw [List.sum_cons] at h0
      have hy0 : y = 0 := by linarith
      have hsum0 : ys.sum = 0 := by linarith
      intro x hx
      rcases List.mem_cons.1 hx with rfl | hx
      · exact hy0
      · exact ih (fun z hz => hnn z (List.mem_cons_of_mem y hz)) hsum0 x hx

/-- C5: `calculateAreaWeightedCentroid` fails with a descriptive error
when the feature list is empty (`No polygons provided`) and when the
total area of two or more features is zero (`coordinates must contain
numbers`, raised by the point constructor on the `0/0 = NaN`
coordinates); a singleton list returns that feature's geometric
centroid; longer lists with nonzero total area return
`Σ(centroid_i × area_i) / Σ(area_i)`. -/
theorem calculateAreaWeightedCentroid_spec {F : Type} (area : F → JSNum)
    (centroidF : F → JSNum × JSNum) :
    (calculateAreaWeightedCentroid area centroidF ([] : List F) =
      .error "No polygons provided".toList) ∧
    (∀ p : F, calculateAreaWeightedCentroid area centroidF [p] = .ok (centroidF p)) ∧
    (∀ (p1 p2 : F) (rest : List F) (a cx cy : F → ℚ),
      (∀ p ∈ p1 :: p2 :: rest, area p = JSNum.num (a p) ∧
        centroidF p = (JSNum.num (cx p), JSNum.num (cy p))) →
      (∀ p ∈ p1 :: p2 :: rest, 0 ≤ a p) →
      ((p1 :: p2 :: rest).map a).sum = 0 →
      calculateAreaWeightedCentroid area centroidF (p1 :: p2 :: rest) =
        .error "coordinates must contain numbers".toList) ∧
    (∀ (p1 p2 : F) (rest : List F) (a cx cy : F → ℚ),
      (∀ p ∈ p1 :: p2 :: rest, area p = JSNum.num (a p) ∧
        centroidF p = (JSNum.num (cx p), JSNum.num (cy p))) →
      ((p1 :: p2 :: rest).map a).sum ≠ 0 →
      calculateAreaWeightedCentroid area centroidF (p1 :: p2 :: rest) =
        .ok (JSNum.num ((((p1 :: p2 :: rest).map (fun p => cx p * a p)).sum) /
              (((p1 :: p2 :: rest).map a).sum)),
             JSNum.num ((((p1 :: p2 :: rest).map (fun p => cy p * a p)).sum) /
              (((p1 :: p2 :: rest).map a).sum)))) := by
  refine ⟨rfl, fun p => rfl, ?_, ?_⟩
  · intro p1 p2 rest a cx cy h hnn htot
    have ha0 : ∀ p ∈ p1 :: p2 :: rest, a p = 0 := by
      intro p hp
      exact sum_zero_of_nonneg ((p1 :: p2 :: rest).map a)
        (by intro x hx; obtain ⟨q, hq, rfl⟩ := List.mem_map.1 hx; exact hnn q hq)
        htot (a p) (List.mem_map_of_mem a hp)
    have hx0 : ((p1 :: p2 :: rest).map (fun p => cx p * a p)).sum = 0 := by
      apply List.sum_eq_zero
      intro x hx
      obtain ⟨q, hq, rfl⟩ := List.mem_map.1 hx
      rw [ha0 q hq, mul_zero]
    have hy0 : ((p1 :: p2 :: rest).map (fun p => cy p * a p)).sum = 0 := by
      apply List.sum_eq_zero
      intro x hx
      obtain ⟨q, hq, rfl⟩ := List.mem_map.1 hx
      rw [ha0 q hq, mul_zero]
    have hfold := centroid_foldl_num area centroidF a cx cy (p1 :: p2 :: rest) h 0 0 0
    rw [htot, hx0, hy0] at hfold
    simp [calculateAreaWeightedCentroid, hfold, JSNum.div, turfPoint, isNumberJS]
  · intro p1 p2 rest a cx cy h hsum
    have hfold := centroid_foldl_num area centroidF a cx cy (p1 :: p2 :: rest) h 0 0 0
    simp only [calculateAreaWeightedCentroid, hfold, zero_add]
    have hdx : (JSNum.num ((List.map (fun p => cx p * a p) (p1 :: p2 :: rest)).sum)).div
        (JSNum.num ((List.map a (p1 :: p2 :: rest)).sum)) =
        JSNum.num (((List.map (fun p => cx p * a p) (p1 :: p2 :: rest)).sum) /
          ((List.map a (p1 :: p2 :: rest)).sum)) := by
      simp only [JSNum.div, if_neg hsum]
    have hdy : (JSNum.num ((List.map (fun p => cy p * a p) (p1 :: p2 :: rest)).sum)).div
        (JSNum.num ((List.map a (p1 :: p2 :: rest)).sum)) =
        JSNum.num (((List.map (fun p => cy p * a p) (p1 :: p2 :: rest)).sum) /
          ((List.map a (p1 :: p2 :: rest)).sum)) := by
      simp only [JSNum.div, if_neg hsum]
    rw [hdx, hdy]
    rfl

/-- C5 witness: areas 1 and 3 with centroids (0,0) and (4,0) give the
weighted centroid (3,0); two zero-area features make the call fail with
the point constructor's error. -/
theorem calculateAreaWeightedCentroid_spec_witness :
    calculateAreaWeightedCentroid (fun b : Bool => JSNum.num (if b then 3 else 1))
      (fun b : Bool => (JSNum.num (if b then 4 else 0), JSNum.num 0))
      [false, true] = .ok (JSNum.num 3, JSNum.num 0) ∧
    calculateAreaWeightedCentroid (fun _ : Unit => JSNum.num 0)
      (fun _ => (JSNum.num 0, JSNum.num 0)) [(), ()] =
      .error "coordinates must contain numbers".toList := by
  constructor
  · have h := (calculateAreaWeightedCentroid_spec
        (fun b : Bool => JSNum.num (if b then 3 else 1))
        (fun b : Bool => (JSNum.num (if b then 4 else 0), JSNum.num 0))).2.2.2
        false true [] (fun b => if b then 3 else 1) (fun b => if b then 4 else 0)
        (fun _ => 0) (fun p _ => ⟨rfl, rfl⟩) (by norm_num)
    rw [h]
    norm_num
  · exact (calculateAreaWeightedCentroid_spec (fun _ : Unit => JSNum.num 0)
      (fun _ => (JSNum.num 0, JSNum.num 0))).2.2.1 () () []
      (fun _ => 0) (fun _ => 0) (fun _ => 0)
      (fun p _ => ⟨rfl, rfl⟩) (fun p _ => le_refl 0) (by simp)

/-! ## C6 — validation accumulates all violations -/

/-- C6: a layer missing both its id and its name, with all other
required fields well-formed, validates to `isValid = false` with exactly
two error entries. -/
theorem validateLayer_missing_id_name (layer : MapLayer) (d : LayerData)
    (h1 : layer.id = []) (h2 : layer.name = [])
    (h3 : layer.data = some d) (h4 : d.type = "FeatureCollection".toList)
    (h5 : layer.nameProperty ≠ []) :
    (validateLayer layer).1 = false ∧ (validateLayer layer).2.length = 2 := by
  simp [validateLayer, h1, h2, h3, h4, h5]

/-- C6 witness: a concrete layer with empty id and name. -/
theorem validateLayer_missing_id_name_witness :
    (validateLayer ⟨[], [], some ⟨"FeatureCollection".toList, some []⟩,
      "name".toList⟩).1 = false ∧
    (validateLayer ⟨[], [], some ⟨"FeatureCollection".toList, some []⟩,
      "name".toList⟩).2.length = 2 :=
  validateLayer_missing_id_name _ ⟨"FeatureCollection".toList, some []⟩
    rfl rfl rfl rfl (by decide)

/-! ## C7 — zero-division safety of the shape indices -/

/-- C7 (amended): every shape index — compactness, roundness,
circularity, elongation, shapeIndex, fractalDimension — returns exactly
`0` when the computed perimeter is `0`; of the indices that divide by
the area, `calculateShapeIndex` and `calculateFractalDimension` guard it
and return `0` when the computed area is `0`, but
`calculateElongationRatio` returns `Infinity` — not `0` — when the area
is `0` and the perimeter is nonzero. -/
theorem shapeIndices_degenerate :
    (∀ a : JSNum, calculateCompactnessRatio a (JSNum.num 0) = JSNum.num 0) ∧
    (∀ a : JSNum, calculateCircularity a (JSNum.num 0) = JSNum.num 0) ∧
    (∀ a : JSNum, calculateRoundness a (JSNum.num 0) = JSNum.num 0) ∧
    (∀ a : JSNum, calculateElongationRatio a (JSNum.num 0) = JSNum.num 0) ∧
    (∀ (sq : JSNum → JSNum) (p : JSNum),
      calculateShapeIndex sq (JSNum.num 0) p = JSNum.num 0) ∧
    (∀ (sq : JSNum → JSNum) (a : JSNum),
      calculateShapeIndex sq a (JSNum.num 0) = JSNum.num 0) ∧
    (∀ (lg : JSNum → JSNum) (p : JSNum),
      calculateFractalDimension lg (JSNum.num 0) p = JSNum.num 0) ∧
    (∀ (lg : JSNum → JSNum) (a : JSNum),
      calculateFractalDimension lg a (JSNum.num 0) = JSNum.num 0) ∧
    (∀ p : ℚ, p ≠ 0 →
      calculateElongationRatio (JSNum.num 0) (JSNum.num p) = JSNum.posInf) := by
  refine ⟨fun a => by simp [calculateCompactnessRatio],
    fun a => by simp [calculateCircularity],
    fun a => by simp [calculateRoundness],
    fun a => by simp [calculateElongationRatio],
    fun sq p => by simp [calculateShapeIndex, JSNum.le],
    fun sq a => ?_, fun lg p => by simp [calculateFractalDimension, JSNum.le],
    fun lg a => ?_, fun p hp => ?_⟩
  · cases a <;> simp [calculateShapeIndex, JSNum.le]
  · cases a <;> simp [calculateFractalDimension, JSNum.le]
  · have hpp : 0 < p * p := mul_self_pos.2 hp
    simp [calculateElongationRatio, JSNum.mul, JSNum.div, hp, hpp,
      ne_of_gt hpp]

/-- C7 counterexample: a degenerate feature with zero area and nonzero
perimeter (e.g. a line-shaped polygon) makes `calculateElongationRatio`
return `Infinity`, not `0`. -/
theorem elongation_zeroArea_counterexample :
    calculateElongationRatio (JSNum.num 0) (JSNum.num 2) = JSNum.posInf ∧
    JSNum.posInf ≠ JSNum.num 0 := by
  constructor
  · simp [calculateElongationRatio, JSNum.mul, JSNum.div]
  · decide

/-- C7 witness: the elongation deviation clause instantiated at a
nonzero perimeter of 3. -/
theorem shapeIndices_degenerate_witness :
    calculateElongationRatio (JSNum.num 0) (JSNum.num 3) = JSNum.posInf :=
  (shapeIndices_degenerate.2.2.2.2.2.2.2.2) 3 (by norm_num)

/-! ## C2 — match-type classification cascade -/

/-- C2: for every candidate string and normalized query, the classifier
reports `exact` exactly on equality, `contains` exactly on substring
containment that is not an exact match, `fuzzy` (only with fuzzy
matching enabled) exactly when the candidate contains the first 3
characters of the query but not the query itself, and otherwise excludes
the candidate. -/
theorem classifyMatch_spec (fz : Bool) (q c : Str) :
    (classifyMatch fz q c = some .exact ↔ c = q) ∧
    (classifyMatch fz q c = some .contains ↔ (q <:+: c ∧ c ≠ q)) ∧
    (classifyMatch fz q c = some .fuzzy ↔
      (fz = true ∧ ¬(q <:+: c) ∧ q.take 3 <:+: c)) ∧
    (classifyMatch fz q c = none ↔
      (c ≠ q ∧ ¬(q <:+: c) ∧ ¬(fz = true ∧ q.take 3 <:+: c))) := by
  unfold classifyMatch
  split_ifs with h1 h2 h3 <;> simp_all

/-! ## C9 — feature filtering pass-through and substring semantics -/

/-- C9: with a blank (empty or whitespace-only) search term,
`filterLayerFeatures` returns the layer's full feature sequence
unmodified; with a non-blank term it keeps exactly the features whose
resolved name contains the term case-insensitively. -/
theorem filterLayerFeatures_spec (layer : MapLayer) (d : LayerData)
    (fs : List GeoJSONFeature) (term : Str)
    (h1 : layer.data = some d) (h2 : d.features = some fs) :
    (isBlank term = true → filterLayerFeatures layer term = fs) ∧
    (isBlank term = false →
      filterLayerFeatures layer term = fs.filter (fun f =>
        decide (lower term <:+: lower (resolveName layer.nameProperty f)))) := by
  constructor <;> intro hb <;> simp [filterLayerFeatures, h1, h2, hb]

/-- C9 witness: the two-feature fixture layer with the empty term and
with the term `1`. -/
theorem filterLayerFeatures_spec_witness :
    filterLayerFeatures ahupuaaLayer [] =
      [ ⟨[("ahupuaa".toList, "Test Ahupuaa 1".toList)], none⟩,
        ⟨[("ahupuaa".toList, "Test Ahupuaa 2".toList)], none⟩ ] ∧
    filterLayerFeatures ahupuaaLayer "1".toList =
      [ ⟨[("ahupuaa".toList, "Test Ahupuaa 1".toList)], none⟩ ] := by
  refine ⟨(filterLayerFeatures_spec ahupuaaLayer _ _ [] rfl rfl).1 rfl, ?_⟩
  rw [(filterLayerFeatures_spec ahupuaaLayer _ _ ("1".toList) rfl rfl).2 (by decide)]
  decide

/-! ## C10 — name match suppresses the feature-id check -/

/-- C10: each feature contributes at most one search result; when its
(enabled) name check matches, the produced result carries the feature
name's band and match type — the id is never consulted, even when an id
match would have scored higher. -/
theorem featureResult_name_priority :
    (∀ (opts : SearchOptions) (q np : Str) (f : GeoJSONFeature) (mt : MatchType),
      opts.includeFeatureNames = true →
      classifyMatch opts.fuzzyMatch q
        (normCand opts.caseSensitive (resolveName np f)) = some mt →
      featureResult opts q np f =
        some ⟨.feature, resolveName np f, resolveId f, featureNameBand mt, mt⟩) ∧
    (∀ (opts : SearchOptions) (q np : Str) (fs : List GeoJSONFeature),
      (fs.filterMap (featureResult opts q np)).length ≤ fs.length) := by
  constructor
  · intro opts q np f mt h1 h2
    simp only [featureResult, h1, if_true, h2]
  · intro opts q np fs
    exact List.length_filterMap_le _ _

/-- C10 witness: a feature whose name is a `contains` match (band 40)
and whose id is an `exact` match (band 80) yields the name-based result;
the suppressed id band is strictly higher. -/
theorem featureResult_name_priority_witness :
    classifyMatch false "farm".toList
      (normCand false (resolveId bothMatchFeature)) = some .exact ∧
    featureResult {} "farm".toList "name".toList bothMatchFeature =
      some ⟨.feature, "big farm".toList, "farm".toList,
        featureNameBand .contains, .contains⟩ ∧
    featureNameBand MatchType.contains < featureIdBand MatchType.exact := by
  refine ⟨by decide, ?_, by decide⟩
  have h := featureResult_name_priority.1 {} "farm".toList "name".toList
    bothMatchFeature .contains rfl (by decide)
  rw [h]
  decide

/-! ## C8 — suggestion generation -/

/-- Invariant of the `Set`-insertion fold: membership is preserved and
no duplicates are introduced. -/
theorem insertionDedup_aux (l : List Str) :
    ∀ acc : List Str,
      (∀ x, x ∈ l.foldl (fun acc x => if x ∈ acc then acc else acc ++ [x]) acc ↔
        x ∈ acc ∨ x ∈ l) ∧
      (acc.Nodup →
        (l.foldl (fun acc x => if x ∈ acc then acc else acc ++ [x]) acc).Nodup) := by
  induction l with
  | nil => intro acc; simp
  | cons y ys ih =>
      intro acc
      constructor
      · intro x
        rw [List.foldl_cons]
        by_cases hy : y ∈ acc
        · rw [if_pos hy, (ih acc).1 x]
          constructor
          · rintro (h | h)
            · exact Or.inl h
            · exact Or.inr (List.mem_cons_of_mem _ h)
          · rintro (h | h)
            · exact Or.inl h
            · rcases List.mem_cons.1 h with rfl | h
              · exact Or.inl hy
              · exact Or.inr h
        · rw [if_neg hy, (ih (acc ++ [y])).1 x]
          simp [List.mem_cons, or_assoc]
      · intro hacc
        rw [List.foldl_cons]
        by_cases hy : y ∈ acc
        · rw [if_pos hy]
          exact (ih acc).2 hacc
        · rw [if_neg hy]
          refine (ih (acc ++ [y])).2 ?_
          refine (List.nodup_append).2 ⟨hacc, List.nodup_singleton y, ?_⟩
          intro a ha hay
          rw [List.mem_singleton.1 hay] at ha
          exact hy ha

/-- `insertionDedup` produces a duplicate-free list. -/
theorem insertionDedup_nodup (l : List Str) : (insertionDedup l).Nodup :=
  (insertionDedup_aux l []).2 List.nodup_nil

/-- `insertionDedup` preserves membership. -/
theorem mem_insertionDedup (l : List Str) (x : Str) :
    x ∈ insertionDedup l ↔ x ∈ l := by
  have h := (insertionDedup_aux l []).1 x
  simpa [insertionDedup] using h

/-- C8 (amended): `getSearchSuggestions` returns the empty sequence for
every query shorter than 2 characters and for every blank
(whitespace-only) query, regardless of the layer data; for every other
query it returns the deduplicated (first-occurrence order) sequence of
every layer name, layer id and feature name containing the query
case-insensitively, truncated to `maxCount`; the result never holds
duplicates and never exceeds `maxCount` entries. -/
theorem getSearchSuggestions_spec (layers : List MapLayer) (q : Str) (n : Nat) :
    (q.length < 2 → getSearchSuggestions layers q n = []) ∧
    (isBlank q = true → getSearchSuggestions layers q n = []) ∧
    (isBlank q = false → 2 ≤ q.length →
      getSearchSuggestions layers q n =
        (insertionDedup (suggestionCandidates layers (lower q))).take n) ∧
    (getSearchSuggestions layers q n).Nodup ∧
    (getSearchSuggestions layers q n).length ≤ n := by
  refine ⟨?_, ?_, ?_, ?_, ?_⟩
  · intro h
    simp [getSearchSuggestions, h]
  · intro h
    simp [getSearchSuggestions, h]
  · intro hb hlen
    simp [getSearchSuggestions, hb, Nat.not_lt.2 hlen]
  · by_cases hg : (isBlank q || decide (q.length < 2)) = true
    · simp [getSearchSuggestions, hg]
    · simp only [getSearchSuggestions, hg, Bool.false_eq_true, if_false]
      exact (insertionDedup_nodup _).sublist (List.take_sublist _ _)
  · by_cases hg : (isBlank q || decide (q.length < 2)) = true
    · simp [getSearchSuggestions, hg]
    · simp only [getSearchSuggestions, hg, Bool.false_eq_true, if_false]
      exact List.length_take_le _ _

/-- C8 counterexample: the whitespace-only query of two spaces is at
least 2 characters long and occurs as a substring of the fixture layer's
name `a  b`, yet the suggestion list is empty — the trim guard fires
before the length threshold. -/
theorem getSearchSuggestions_blank_counterexample :
    ("  ".toList).length = 2 ∧
    (lower "  ".toList <:+: lower doubleSpaceLayer.name) ∧
    getSearchSuggestions [doubleSpaceLayer] "  ".toList 10 = [] := by
  refine ⟨by decide, by decide, by decide⟩

/-- C8 witness: a concrete non-blank query of length 3. -/
theorem getSearchSuggestions_spec_witness :
    isBlank "ahu".toList = false ∧ 2 ≤ ("ahu".toList).length ∧
    getSearchSuggestions [ahupuaaLayer] "ahu".toList 10 =
      (insertionDedup (suggestionCandidates [ahupuaaLayer]
        (lower "ahu".toList))).take 10 :=
  ⟨by decide, by decide,
    (getSearchSuggestions_spec [ahupuaaLayer] "ahu".toList 10).2.2.1
      (by decide) (by decide)⟩

/-! ## C1 — relevance bands, descending order and truncation -/

/-- Every emitted layer result carries the layer band for its match
type. -/
theorem layerResult_bands (opts : SearchOptions) (q : Str) (l : MapLayer)
    (r : SearchResult) (h : layerResult opts q l = some r) :
    r.type = .layer ∧ r.relevance = layerBand r.matchType := by
  simp only [layerResult] at h
  split_ifs at h <;> first
    | exact Option.noConfusion h
    | (cases h; exact ⟨rfl, rfl⟩)

/-- Every emitted feature result carries the feature-name band or the
feature-id band for its match type. -/
theorem featureResult_bands (opts : SearchOptions) (q np : Str)
    (f : GeoJSONFeature) (r : SearchResult)
    (h : featureResult opts q np f = some r) :
    r.type = .feature ∧
    (r.relevance = featureNameBand r.matchType ∨
      r.relevance = featureIdBand r.matchType) := by
  simp only [featureResult] at h
  rcases hnm : (if opts.includeFeatureNames then
      classifyMatch opts.fuzzyMatch q (normCand opts.caseSensitive (resolveName np f))
    else none) with _ | mt
  · rw [hnm] at h
    by_cases hi : opts.includeFeatureIds
    · rw [if_pos hi] at h
      rcases him : classifyMatch opts.fuzzyMatch q
          (normCand opts.caseSensitive (resolveId f)) with _ | mt2
      · rw [him] at h
        exact Option.noConfusion h
      · rw [him] at h
        cases h
        exact ⟨rfl, Or.inr rfl⟩
    · rw [if_neg hi] at h
      exact Option.noConfusion h
  · rw [hnm] at h
    cases h
    exact ⟨rfl, Or.inl rfl⟩

/-- Every candidate result carries the band of its kind. -/
theorem searchCandidates_bands (layers : List MapLayer) (q : Str)
    (opts : SearchOptions) (r : SearchResult)
    (h : r ∈ searchCandidates layers q opts) :
    (r.type = .layer → r.relevance = layerBand r.matchType) ∧
    (r.type = .feature →
      r.relevance = featureNameBand r.matchType ∨
        r.relevance = featureIdBand r.matchType) := by
  unfold searchCandidates at h
  rcases List.mem_append.1 h with h | h
  · by_cases hi : opts.includeLayerNames
    · rw [if_pos hi] at h
      obtain ⟨l, _, hl⟩ := List.mem_filterMap.1 h
      obtain ⟨ht, hb⟩ := layerResult_bands opts q l r hl
      refine ⟨fun _ => hb, fun hf => ?_⟩
      rw [ht] at hf
      exact absurd hf (by simp)
    · rw [if_neg hi] at h
      exact absurd h (List.not_mem_nil r)
  · by_cases hi : (opts.includeFeatureNames || opts.includeFeatureIds) = true
    · rw [if_pos hi] at h
      obtain ⟨l, _, hfm⟩ := List.mem_flatMap.1 h
      obtain ⟨f, _, hf⟩ := List.mem_filterMap.1 hfm
      obtain ⟨ht, hb⟩ := featureResult_bands opts q l.nameProperty f r hf
      refine ⟨fun hl => ?_, fun _ => hb⟩
      rw [ht] at hl
      exact absurd hl (by simp)
    · rw [if_neg hi] at h
      exact absurd h (List.not_mem_nil r)

/-- C1: every result of `searchAcrossLayers` carries exactly the fixed
relevance band of its candidate kind and match type (layer 100/50/25,
feature name 90/40/20, feature id 80/30/15); the result list is sorted
in descending relevance order; and it holds at most `maxResults`
entries. -/
theorem searchAcrossLayers_spec (layers : List MapLayer) (q : Str)
    (opts : SearchOptions) :
    (∀ r ∈ searchAcrossLayers layers q opts,
      (r.type = .layer → r.relevance = layerBand r.matchType) ∧
      (r.type = .feature →
        r.relevance = featureNameBand r.matchType ∨
          r.relevance = featureIdBand r.matchType)) ∧
    List.Pairwise (fun a b => b.relevance ≤ a.relevance)
      (searchAcrossLayers layers q opts) ∧
    (searchAcrossLayers layers q opts).length ≤ opts.maxResults := by
  by_cases hb : isBlank q = true
  · simp [searchAcrossLayers, hb]
  · have hdef : searchAcrossLayers layers q opts =
        ((searchCandidates layers (normCand opts.caseSensitive q) opts).mergeSort
          (fun a b => decide (b.relevance ≤ a.relevance))).take opts.maxResults := by
      simp [searchAcrossLayers, hb]
    refine ⟨?_, ?_, ?_⟩
    · intro r hr
      rw [hdef] at hr
      have hr1 := List.mem_of_mem_take hr
      have hr2 : r ∈ searchCandidates layers (normCand opts.caseSensitive q) opts :=
        (List.mergeSort_perm _ _).mem_iff.1 hr1
      exact searchCandidates_bands _ _ _ _ hr2
    · rw [hdef]
      have htrans : ∀ a b c : SearchResult,
          decide (b.relevance ≤ a.relevance) = true →
          decide (c.relevance ≤ b.relevance) = true →
          decide (c.relevance ≤ a.relevance) = true := by
        intro a b c hab hbc
        simp only [decide_eq_true_eq] at *
        omega
      have htot : ∀ a b : SearchResult,
          (decide (b.relevance ≤ a.relevance) ||
            decide (a.relevance ≤ b.relevance)) = true := by
        intro a b
        simpa using Nat.le_total b.relevance a.relevance
      have hs := List.sorted_mergeSort htrans htot
        (searchCandidates layers (normCand opts.caseSensitive q) opts)
      have hs2 : List.Pairwise (fun a b : SearchResult => b.relevance ≤ a.relevance)
          ((searchCandidates layers (normCand opts.caseSensitive q) opts).mergeSort
            (fun a b => decide (b.relevance ≤ a.relevance))) :=
        hs.imp (fun hab => by simpa using hab)
      exact hs2.sublist (List.take_sublist _ _)
    · rw [hdef]
      exact List.length_take_le _ _

/-- C1 witness: a single layer whose name matches the query exactly. -/
theorem searchAcrossLayers_spec_witness :
    (⟨.layer, "Farm".toList, "f1".toList, 100, .exact⟩ : SearchResult) ∈
      searchAcrossLayers [farmLayer] "farm".toList {} ∧
    (⟨.layer, "Farm".toList, "f1".toList, 100, .exact⟩ : SearchResult).relevance =
      layerBand (⟨.layer, "Farm".toList, "f1".toList, 100,
        .exact⟩ : SearchResult).matchType := by
  have hc : searchCandidates [farmLayer]
      (normCand ({} : SearchOptions).caseSensitive "farm".toList) {} =
      [⟨.layer, "Farm".toList, "f1".toList, 100, .exact⟩] := by decide
  have hmem : (⟨.layer, "Farm".toList, "f1".toList, 100, .exact⟩ : SearchResult) ∈
      searchAcrossLayers [farmLayer] "farm".toList {} := by
    unfold searchAcrossLayers
    rw [if_neg (by decide), hc]
    simp [List.mergeSort]
  exact ⟨hmem,
    ((searchAcrossLayers_spec [farmLayer] "farm".toList {}).1 _ hmem).1 rfl⟩

end FarmMaps
